import Mathlib

/-!
Verification of the NetworkSedimentTransporter transport engine
(landlab/components/network_sediment_transporter/network_sediment_transporter.py).

The Python source is shallowly embedded below.  Pure numeric helpers
(channel slope, alluvium depth, reference Shields stress, abrasion) become
Lean functions over exact rationals where the source arithmetic is rational,
and over the reals where the source uses transcendental functions
(exponential, fractional powers).  Fallible code (the raise statements of the
source) is embedded with the Except monad over an explicit error type that
mirrors the ValueError messages of the source.  Stateful code
(run_one_step, the per-parcel advection walk) is embedded with explicit
state records; the Python while loop is given a fuel parameter.
-/

namespace NST

/-- Error kind raised by the engine, one constructor per distinct raise
site of the source (the source raises ValueError / RuntimeError with a
fixed message at each site). -/
inductive EngineError where
  /-- NST Channel Slope Negative -/
  | negativeSlope
  /-- NST Alluvium Depth Negative -/
  | negativeAlluviumDepth
  /-- NST reference Shields stress is negative -/
  | negativeShields
  /-- NST parcel volume increases due to abrasion -/
  | volumeIncrease
  /-- No more parcels on grid -/
  | noMoreParcels
  /-- fuel exhaustion of the embedded while loop (no source counterpart;
  the source loop would simply keep iterating) -/
  | outOfFuel
deriving DecidableEq

/-- Sentinel for a parcel that has left the network.  In the source this is
NetworkModelGrid.BAD_INDEX - 1 where the collaborating grid library uses
-1 as its bad-index value, so the sentinel is -2. -/
def OUT_OF_NETWORK : ℤ := -2

/-- Active-layer flag value for an active parcel (source constant _ACTIVE). -/
def ACTIVE : ℕ := 1

/-- Active-layer flag value for a storage parcel (source constant _INACTIVE). -/
def INACTIVE : ℕ := 0

/-- Embedding of _recalculate_channel_slope: slope = (z_up - z_down) / dx,
raising when negative, floor-clamped to the threshold (default 1e-4). -/
def recalculate_channel_slope (zUp zDown dx : ℚ) (threshold : ℚ := 1 / 10000) :
    Except EngineError ℚ :=
  let chanSlope := (zUp - zDown) / dx
  if chanSlope < 0 then Except.error EngineError.negativeSlope
  else if chanSlope < threshold then Except.ok threshold
  else Except.ok chanSlope

/-- Raw reference Shields stress value computed by
_calculate_reference_shear_stress before its sign check. -/
noncomputable def taursg_value (fluidDensity R g meanActiveGrainSize fracSand : ℝ) : ℝ :=
  fluidDensity * R * g * meanActiveGrainSize *
    (0.021 + 0.015 * Real.exp (-20.0 * fracSand))

/-- Embedding of _calculate_reference_shear_stress: the Wilcock and Crowe
(2003) reference Shields stress, raising when negative. -/
noncomputable def calculate_reference_shear_stress
    (fluidDensity R g meanActiveGrainSize fracSand : ℝ) : Except EngineError ℝ :=
  let taursg := taursg_value fluidDensity R g meanActiveGrainSize fracSand
  if taursg < 0 then Except.error EngineError.negativeShields
  else Except.ok taursg

end NST

/-- C3: for every link the recomputed channel slope equals
(upstream elevation - downstream elevation) / length, floor-clamped to
1e-4 when smaller, and a negative raw slope raises instead of returning;
in particular slope(10,0,10) = 1, slope(0,0,10) = 1e-4 and slope(0,10,10)
raises. -/
theorem c3_channel_slope :
    (∀ zUp zDown dx : ℚ,
      NST.recalculate_channel_slope zUp zDown dx =
        if (zUp - zDown) / dx < 0 then Except.error NST.EngineError.negativeSlope
        else Except.ok (max (1 / 10000) ((zUp - zDown) / dx))) ∧
    NST.recalculate_channel_slope 10 0 10 = Except.ok 1 ∧
    NST.recalculate_channel_slope 0 0 10 = Except.ok (1 / 10000) ∧
    NST.recalculate_channel_slope 0 10 10 = Except.error NST.EngineError.negativeSlope := by
  refine ⟨fun zUp zDown dx => ?_, ?_, ?_, ?_⟩
  · unfold NST.recalculate_channel_slope
    rcases lt_or_le ((zUp - zDown) / dx) 0 with h | h
    · simp [h]
    · rcases lt_or_le ((zUp - zDown) / dx) (1 / 10000) with h2 | h2
      · rw [if_neg (not_lt.mpr h), if_pos h2, max_eq_left h2.le, if_neg (not_lt.mpr h)]
      · rw [if_neg (not_lt.mpr h), if_neg (not_lt.mpr h2), max_eq_right h2,
          if_neg (not_lt.mpr h)]
  · unfold NST.recalculate_channel_slope
    norm_num
  · unfold NST.recalculate_channel_slope
    norm_num
  · unfold NST.recalculate_channel_slope
    norm_num

/-- Helper bound: exp(-18) is tiny (below 2^-18), used for the concrete
reference-shear-stress approximation of the spec. -/
theorem exp_neg_eighteen_small : Real.exp (-18) ≤ 1 / 262144 := by
  have h1 : Real.exp (-18) = (Real.exp 18)⁻¹ := Real.exp_neg 18
  have h2 : (2 : ℝ) ≤ Real.exp 1 := by
    have := Real.exp_one_gt_d9
    linarith
  have h3 : Real.exp 18 = Real.exp 1 ^ (18 : ℕ) := by
    rw [← Real.exp_nat_mul]
    norm_num
  have h4 : (2 : ℝ) ^ (18 : ℕ) ≤ Real.exp 1 ^ (18 : ℕ) :=
    pow_le_pow_left (by norm_num) h2 18
  have h5 : (0 : ℝ) < 2 ^ (18 : ℕ) := by positivity
  rw [h1, h3]
  calc (Real.exp 1 ^ (18 : ℕ))⁻¹ ≤ ((2 : ℝ) ^ (18 : ℕ))⁻¹ := inv_le_inv_of_le h5 h4
    _ ≤ 1 / 262144 := by norm_num

/-- C5: the reference Shields stress equals
rho_fluid * R * g * D_mean_active * (0.021 + 0.015 * exp(-20 * sand_fraction));
at (1,1,1,1,0) it is within 0.01 of 0.036, at (1000,1.65,9.8,0.1,0.9) it is
within 0.01 of 33.96, and a negative result raises instead of returning. -/
theorem c5_reference_shear_stress :
    (∀ fluidDensity R g D fs : ℝ,
      NST.calculate_reference_shear_stress fluidDensity R g D fs =
        if fluidDensity * R * g * D * (0.021 + 0.015 * Real.exp (-20.0 * fs)) < 0
        then Except.error NST.EngineError.negativeShields
        else Except.ok
          (fluidDensity * R * g * D * (0.021 + 0.015 * Real.exp (-20.0 * fs)))) ∧
    |NST.taursg_value 1 1 1 1 0 - 0.036| ≤ 0.01 ∧
    |NST.taursg_value 1000 1.65 9.8 0.1 0.9 - 33.96| ≤ 0.01 ∧
    (∀ fluidDensity R g D fs : ℝ,
      NST.taursg_value fluidDensity R g D fs < 0 →
      NST.calculate_reference_shear_stress fluidDensity R g D fs =
        Except.error NST.EngineError.negativeShields) := by
  refine ⟨fun fluidDensity R g D fs => rfl, ?_, ?_, fun fluidDensity R g D fs h => ?_⟩
  · unfold NST.taursg_value
    rw [show (-20.0 : ℝ) * 0 = 0 by norm_num, Real.exp_zero]
    norm_num
  · unfold NST.taursg_value
    rw [show (-20.0 : ℝ) * 0.9 = -18 by norm_num]
    have hpos : 0 < Real.exp (-18) := Real.exp_pos _
    have hsmall := exp_neg_eighteen_small
    rw [abs_le]
    constructor <;> nlinarith
  · unfold NST.calculate_reference_shear_stress
    rw [if_pos h]

/-- C5 witness: the negative-raise clause of c5_reference_shear_stress at the
concrete input (-1,1,1,1,0), whose raw value is -0.036. -/
theorem c5_reference_shear_stress_witness :
    NST.calculate_reference_shear_stress (-1) 1 1 1 0 =
      Except.error NST.EngineError.negativeShields :=
  c5_reference_shear_stress.2.2.2 (-1) 1 1 1 0 (by
    unfold NST.taursg_value
    rw [show (-20.0 : ℝ) * 0 = 0 by norm_num, Real.exp_zero]
    norm_num)

namespace NST

/-- Per-parcel frac_parcel of _calc_transport_wilcock_crowe: assigned as
parcel volume / active volume of the link wherever the active volume is
nonzero, and left at its NaN initialization (modelled as none) otherwise. -/
noncomputable def frac_parcel (volume volAct : ℝ) : Option ℝ :=
  if volAct ≠ 0 then some (volume / volAct) else none

/-- Per-parcel virtual velocity assignment of _calc_transport_wilcock_crowe:
for parcels with active flag 1 it is
W * tau^(3/2) * frac / fluid_density^(3/2) / g / R / active_layer_thickness,
and parcels left at the zero initialization (inactive) keep velocity 0.
The final NaN clamp of the source (pvelocity[isnan] = 0) is modelled by
sending a none fraction to 0. -/
noncomputable def pvelocity_update (active : Bool) (W tau : ℝ) (fracp : Option ℝ)
    (fluidDensity g R activeLayerThickness : ℝ) : ℝ :=
  if active then
    match fracp with
    | some f =>
        W * tau ^ ((3 : ℝ) / 2) * f / fluidDensity ^ ((3 : ℝ) / 2) / g / R /
          activeLayerThickness
    | none => 0
  else 0

end NST

/-- C1 counterexample: with parcel volume 1 in a link of active volume 2 the
code computes frac_parcel = 1/2, not the claimed
(active volume of link) / (parcel volume) = 2. -/
theorem c1_frac_counterexample :
    NST.frac_parcel 1 2 = some (1 / 2) ∧ NST.frac_parcel 1 2 ≠ some (2 / 1) := by
  constructor
  · unfold NST.frac_parcel
    norm_num
  · unfold NST.frac_parcel
    norm_num

/-- C1 amended: for every active parcel in a link with nonzero active volume,
frac_parcel equals (this parcel volume) / (active volume of its link), and
the virtual velocity equals
W * tau^1.5 * frac / (fluid_density^1.5 * g * R * active_layer_thickness);
parcels outside the active layer get velocity 0. -/
theorem c1_velocity_amended (volume volAct W tau fluidDensity g R alt : ℝ)
    (h : volAct ≠ 0) :
    NST.frac_parcel volume volAct = some (volume / volAct) ∧
    NST.pvelocity_update true W tau (NST.frac_parcel volume volAct)
        fluidDensity g R alt =
      W * tau ^ ((3 : ℝ) / 2) * (volume / volAct) /
        (fluidDensity ^ ((3 : ℝ) / 2) * g * R * alt) ∧
    NST.pvelocity_update false W tau (NST.frac_parcel volume volAct)
        fluidDensity g R alt = 0 := by
  have hfrac : NST.frac_parcel volume volAct = some (volume / volAct) := by
    unfold NST.frac_parcel
    rw [if_pos h]
  refine ⟨hfrac, ?_, rfl⟩
  rw [hfrac]
  unfold NST.pvelocity_update
  simp only [if_pos]
  rw [div_div, div_div, div_div]
  ring_nf

/-- C1 witness: c1_velocity_amended instantiated at parcel volume 1, link
active volume 2 and unit hydraulic quantities. -/
theorem c1_velocity_amended_witness :
    NST.frac_parcel 1 2 = some ((1 : ℝ) / 2) ∧
    NST.pvelocity_update true 1 1 (NST.frac_parcel 1 2) 1 1 1 1 =
      1 * (1 : ℝ) ^ ((3 : ℝ) / 2) * ((1 : ℝ) / 2) /
        ((1 : ℝ) ^ ((3 : ℝ) / 2) * 1 * 1 * 1) ∧
    NST.pvelocity_update false 1 1 (NST.frac_parcel 1 2) 1 1 1 1 = 0 :=
  c1_velocity_amended 1 2 1 1 1 1 1 1 (by norm_num)

namespace NST

/-- A parcel of one link as seen by _partition_active_and_storage_layers:
its arrival time in the link and its volume at the current timestep. -/
structure LinkParcel where
  arrival : ℚ
  volume : ℚ
deriving DecidableEq

/-- Descending-arrival order used by the partitioner; models
np.flip(np.argsort(time_arrival_in_link)). -/
def byArrivalDesc (a b : LinkParcel) : Prop := b.arrival ≤ a.arrival

instance : DecidableRel byArrivalDesc := fun a b => inferInstanceAs (Decidable (_ ≤ _))

instance : IsTotal LinkParcel byArrivalDesc := ⟨fun a b => le_total b.arrival a.arrival⟩

instance : IsTrans LinkParcel byArrivalDesc :=
  ⟨fun _ _ _ h1 h2 => le_trans h2 h1⟩

/-- The link parcels sorted most-recently-arrived first. -/
def sortByArrivalDesc (ps : List LinkParcel) : List LinkParcel :=
  List.insertionSort byArrivalDesc ps

/-- Running cumulative sums (np.cumsum): element k is acc plus the sum of
the first k+1 list elements. -/
def cumsumFrom (acc : ℚ) : List ℚ → List ℚ
  | [] => []
  | x :: xs => (acc + x) :: cumsumFrom (acc + x) xs

/-- Flag assignment of the partitioner: every parcel of the link is first
set _ACTIVE, then the parcels whose cumulative volume exceeds capacity are
overwritten _INACTIVE; the composition marks a sorted parcel with
cumulative volume c as inactive exactly when capacity < c. -/
def markParcel (cap : ℚ) (p : LinkParcel) (c : ℚ) : LinkParcel × ℕ :=
  if cap < c then (p, INACTIVE) else (p, ACTIVE)

/-- Link capacity: channel width * link length * active layer thickness. -/
def capacity (width length thickness : ℚ) : ℚ := width * length * thickness

/-- Embedding of the per-link body of _partition_active_and_storage_layers:
when the link total volume is positive, sort the parcels by descending
arrival, take running cumulative volumes and flag each parcel active or
inactive against capacity; otherwise the flags of the previous timestep
(carried forward by _create_new_parcel_time) are kept. -/
def partition_active_and_storage_layers (ps : List LinkParcel) (prevFlags : List ℕ)
    (cap : ℚ) : List (LinkParcel × ℕ) :=
  if 0 < (ps.map LinkParcel.volume).sum then
    let sorted := sortByArrivalDesc ps
    let cumvol := cumsumFrom 0 (sorted.map LinkParcel.volume)
    List.zipWith (markParcel cap) sorted cumvol
  else ps.zip prevFlags

/-- Flag characterization of markParcel along a zipWith, by induction over
the sorted parcels and their cumulative volumes. -/
theorem markParcel_flag_iff (cap : ℚ) :
    ∀ (l : List LinkParcel) (cs : List ℚ) (k : ℕ) (pf : LinkParcel × ℕ) (c : ℚ),
      (List.zipWith (markParcel cap) l cs)[k]? = some pf → cs[k]? = some c →
      (pf.2 = ACTIVE ↔ c ≤ cap) := by
  intro l
  induction l with
  | nil => intro cs k pf c h1; simp at h1
  | cons p l ih =>
    intro cs k pf c h1 h2
    cases cs with
    | nil => simp at h1
    | cons c0 cs =>
      cases k with
      | zero =>
        simp only [List.zipWith_cons_cons, List.getElem?_cons_zero, Option.some.injEq] at h1 h2
        subst h1
        subst h2
        unfold markParcel
        rcases lt_or_le cap c0 with hlt | hle
        · rw [if_pos hlt]
          simp only [INACTIVE, ACTIVE]
          constructor
          · intro h01; exact absurd h01 (by norm_num)
          · intro hc; exact absurd hc (not_le.mpr hlt)
        · rw [if_neg (not_lt.mpr hle)]
          simp only [ACTIVE]
          exact ⟨fun _ => hle, fun _ => trivial⟩
      | succ k =>
        simp only [List.zipWith_cons_cons, List.getElem?_cons_succ] at h1 h2
        exact ih cs k pf c h1 h2

end NST

/-- C2: for every link with positive total parcel volume, the partitioner
orders the parcels by descending arrival time (a permutation of the link
parcels), and a parcel is flagged active exactly when the running
cumulative volume at its position does not exceed the link capacity
width * length * active-layer thickness. -/
theorem c2_filo_partition (ps : List NST.LinkParcel) (prevFlags : List ℕ)
    (w l t : ℚ) (h : 0 < (ps.map NST.LinkParcel.volume).sum) :
    (NST.sortByArrivalDesc ps).Sorted NST.byArrivalDesc ∧
    (NST.sortByArrivalDesc ps).Perm ps ∧
    ∀ (k : ℕ) (pf : NST.LinkParcel × ℕ) (c : ℚ),
      (NST.partition_active_and_storage_layers ps prevFlags
        (NST.capacity w l t))[k]? = some pf →
      (NST.cumsumFrom 0 ((NST.sortByArrivalDesc ps).map NST.LinkParcel.volume))[k]? =
        some c →
      (pf.2 = NST.ACTIVE ↔ c ≤ NST.capacity w l t) := by
  refine ⟨List.sorted_insertionSort NST.byArrivalDesc ps,
    List.perm_insertionSort NST.byArrivalDesc ps, fun k pf c h1 h2 => ?_⟩
  unfold NST.partition_active_and_storage_layers at h1
  rw [if_pos h] at h1
  exact NST.markParcel_flag_iff (NST.capacity w l t) _ _ k pf c h1 h2

/-- C2 witness: two parcels of volumes 3 (arrival 1) and 2 (arrival 2) in a
link of capacity 4; the parcel at sorted position 1 (cumulative volume 5)
is flagged inactive. -/
theorem c2_filo_partition_witness :
    (0 : ℚ) < (([⟨1, 3⟩, ⟨2, 2⟩] : List NST.LinkParcel).map NST.LinkParcel.volume).sum ∧
    ((NST.LinkParcel.mk 1 3, NST.INACTIVE).2 = NST.ACTIVE ↔
      (5 : ℚ) ≤ NST.capacity 1 1 4) :=
  ⟨by norm_num, (c2_filo_partition [⟨1, 3⟩, ⟨2, 2⟩] [] 1 1 4 (by norm_num)).2.2 1
    (NST.LinkParcel.mk 1 3, NST.INACTIVE) 5
    (by
      norm_num [NST.partition_active_and_storage_layers, NST.sortByArrivalDesc,
        List.insertionSort, List.orderedInsert, NST.byArrivalDesc, NST.cumsumFrom,
        NST.markParcel, NST.capacity])
    (by
      norm_num [NST.sortByArrivalDesc, List.insertionSort, List.orderedInsert,
        NST.byArrivalDesc, NST.cumsumFrom])⟩

namespace NST

/-- Raw alluvium depth value computed by _calculate_alluvium_depth before
its sign check: 2 * stored volume / (sum of upstream width*length +
downstream width*length) / (1 - porosity). -/
def alluvium_depth_value (storedVolume : ℚ) (upWidths upLengths : List ℚ)
    (downWidth downLength porosity : ℚ) : ℚ :=
  2 * storedVolume /
    ((List.zipWith (· * ·) upWidths upLengths).sum + downWidth * downLength) /
    (1 - porosity)

/-- Embedding of _calculate_alluvium_depth, raising when negative. -/
def calculate_alluvium_depth (storedVolume : ℚ) (upWidths upLengths : List ℚ)
    (downWidth downLength porosity : ℚ) : Except EngineError ℚ :=
  let d := alluvium_depth_value storedVolume upWidths upLengths downWidth
    downLength porosity
  if d < 0 then Except.error EngineError.negativeAlluviumDepth
  else Except.ok d

/-- Everything _adjust_node_elevation reads about one node: the number of
contributing (incoming-flow) links, bedrock and topographic elevation,
whether the node has a downstream link (link_to_flow_receiving_node is not
BAD_INDEX), the stored-volume value vol_stor[downstream_link_id][n], and
the widths and lengths of the real upstream links. -/
structure NodeData where
  numContributors : ℕ
  bedrock : ℚ
  elevation : ℚ
  hasDownstreamLink : Bool
  downstreamStoredVolume : ℚ
  downstreamWidth : ℚ
  downstreamLength : ℚ
  upWidths : List ℚ
  upLengths : List ℚ
deriving DecidableEq

/-- Per-node body of _adjust_node_elevation: head nodes (no contributors)
are skipped; otherwise the downstream width and length are zeroed when the
node has no downstream link, the alluvium depth is computed, and the
topographic elevation is overwritten as bedrock + alluvium depth. -/
def adjust_node_elevation (porosity : ℚ) (nd : NodeData) : Except EngineError NodeData :=
  if 0 < nd.numContributors then
    let downWidth := if nd.hasDownstreamLink then nd.downstreamWidth else 0
    let downLength := if nd.hasDownstreamLink then nd.downstreamLength else 0
    match calculate_alluvium_depth nd.downstreamStoredVolume nd.upWidths
      nd.upLengths downWidth downLength porosity with
    | Except.error e => Except.error e
    | Except.ok d => Except.ok { nd with elevation := nd.bedrock + d }
  else Except.ok nd

end NST

/-- C6: head nodes are left unmodified; for every node with at least one
contributing upstream link, with downstream width and length taken as 0
when the node has no downstream link, the alluvium depth equals
2 * stored volume of the downstream link / (sum of upstream width*length +
downstream width*length) / (1 - porosity), a negative depth raises, and
otherwise the topographic elevation is overwritten as bedrock + depth. -/
theorem c6_alluvium_node_elevation (porosity : ℚ) (nd : NST.NodeData) :
    (nd.numContributors = 0 → NST.adjust_node_elevation porosity nd = Except.ok nd) ∧
    (0 < nd.numContributors →
      (NST.alluvium_depth_value nd.downstreamStoredVolume nd.upWidths nd.upLengths
          (if nd.hasDownstreamLink then nd.downstreamWidth else 0)
          (if nd.hasDownstreamLink then nd.downstreamLength else 0) porosity < 0 →
        NST.adjust_node_elevation porosity nd =
          Except.error NST.EngineError.negativeAlluviumDepth) ∧
      (0 ≤ NST.alluvium_depth_value nd.downstreamStoredVolume nd.upWidths nd.upLengths
          (if nd.hasDownstreamLink then nd.downstreamWidth else 0)
          (if nd.hasDownstreamLink then nd.downstreamLength else 0) porosity →
        NST.adjust_node_elevation porosity nd =
          Except.ok { nd with
            elevation := nd.bedrock +
              NST.alluvium_depth_value nd.downstreamStoredVolume nd.upWidths
                nd.upLengths (if nd.hasDownstreamLink then nd.downstreamWidth else 0)
                (if nd.hasDownstreamLink then nd.downstreamLength else 0) porosity })) := by
  constructor
  · intro h0
    unfold NST.adjust_node_elevation
    rw [if_neg (by omega)]
  · intro hpos
    constructor
    · intro hneg
      unfold NST.adjust_node_elevation NST.calculate_alluvium_depth
      rw [if_pos hpos]
      simp only [if_pos hneg]
    · intro hnonneg
      unfold NST.adjust_node_elevation NST.calculate_alluvium_depth
      rw [if_pos hpos]
      simp only [if_neg (not_lt.mpr hnonneg)]

/-- C6 witness: a node with one contributing link (width 2, length 5),
a downstream link (width 1, length 10), stored volume 10 and porosity 1/2:
alluvium depth 2, elevation overwritten to bedrock 3 + 2. -/
theorem c6_alluvium_node_elevation_witness :
    NST.adjust_node_elevation (1 / 2)
      (NST.NodeData.mk 1 3 7 true 10 1 10 [2] [5]) =
      Except.ok (NST.NodeData.mk 1 3 5 true 10 1 10 [2] [5]) := by
  have happ := ((c6_alluvium_node_elevation (1 / 2)
    (NST.NodeData.mk 1 3 7 true 10 1 10 [2] [5])).2 (by norm_num)).2
    (by norm_num [NST.alluvium_depth_value])
  norm_num [NST.alluvium_depth_value] at happ
  exact happ

namespace NST

/-- One row of the parcels DataRecord at one time slice: the current link
(element_id, possibly the OUT_OF_NETWORK sentinel) and the five
carried-forward parcel attributes of self.parcel_attributes. -/
structure ParcelRec where
  elementId : ℤ
  timeArrivalInLink : ℚ
  activeLayer : ℕ
  locationInLink : ℚ
  D : ℚ
  volume : ℚ
deriving DecidableEq

/-- The engine state touched by run_one_step: the simulation clock
(self._time), the time index (self._time_idx) and the parcel record
history, one slice per recorded time, newest slice first (the source
DataRecord keeps time as a trailing axis; the newest-first list is the
same data with easier access to the last slice). -/
structure EngineState where
  time : ℚ
  timeIdx : ℕ
  slices : List (List ParcelRec)
deriving DecidableEq

/-- Embedding of _create_new_parcel_time: when the time index is nonzero,
append a new time slice whose rows copy the previous slice (add_record +
ffill + the attribute copy loop). -/
def create_new_parcel_time (s : EngineState) : EngineState :=
  if s.timeIdx ≠ 0 then { s with slices := s.slices.headD [] :: s.slices } else s

/-- Embedding of self._this_timesteps_parcels restricted to the current
slice: a parcel participates this timestep when its element_id in the
newest slice is not the OUT_OF_NETWORK sentinel. -/
def this_timesteps_parcels (s : EngineState) : List Bool :=
  (s.slices.headD []).map (fun p => decide (p.elementId ≠ OUT_OF_NETWORK))

/-- Embedding of run_one_step: advance the clock and time index, create the
new parcel time slice, and either run the transport phases (partitioning,
node elevation, slope update, transport, advection, passed here as one
composed state transformer since the exhaustion claims hold for every
choice of phases) or raise the exhaustion error when no parcels remain
in-network. -/
def run_one_step (phases : EngineState → EngineState × Except EngineError Unit)
    (s : EngineState) (dt : ℚ) : EngineState × Except EngineError Unit :=
  let s1 : EngineState := { s with time := s.time + dt, timeIdx := s.timeIdx + 1 }
  let s2 := create_new_parcel_time s1
  if (this_timesteps_parcels s2).any (fun b => b) then phases s2
  else (s2, Except.error EngineError.noMoreParcels)

end NST


/-- Helper: when every parcel of the newest slice is out of network, the
step reaches the exhaustion branch, and the state a raising run_one_step
leaves behind is exactly the clock advance plus the new carried-forward
slice, for every choice of transport phases. -/
theorem run_one_step_exhaustion
    (phases : NST.EngineState → NST.EngineState × Except NST.EngineError Unit)
    (s : NST.EngineState) (dt : ℚ)
    (h : ∀ p ∈ s.slices.headD [], p.elementId = NST.OUT_OF_NETWORK) :
    NST.run_one_step phases s dt =
      (NST.EngineState.mk (s.time + dt) (s.timeIdx + 1)
        (s.slices.headD [] :: s.slices),
       Except.error NST.EngineError.noMoreParcels) := by
  have hcreate : NST.create_new_parcel_time
      { s with time := s.time + dt, timeIdx := s.timeIdx + 1 } =
      NST.EngineState.mk (s.time + dt) (s.timeIdx + 1)
        (s.slices.headD [] :: s.slices) := by
    unfold NST.create_new_parcel_time
    simp
  have hany : (NST.this_timesteps_parcels
      (NST.EngineState.mk (s.time + dt) (s.timeIdx + 1)
        (s.slices.headD [] :: s.slices))).any (fun b => b) = false := by
    simp only [NST.this_timesteps_parcels, List.headD_cons, List.any_eq_false,
      List.mem_map]
    rintro b ⟨p, hp, rfl⟩
    simp [h p hp]
  simp only [NST.run_one_step]
  rw [hcreate, hany]
  simp

/-- C7: calling run_one_step when every parcel of the current slice has the
OUT_OF_NETWORK sentinel as its link raises the exhaustion error, and none
of the transport phases is attempted: the outcome is the same for every
choice of phases (in particular the same as with a no-op phase stack). -/
theorem c7_run_one_step_exhaustion_error
    (phases : NST.EngineState → NST.EngineState × Except NST.EngineError Unit)
    (s : NST.EngineState) (dt : ℚ)
    (h : ∀ p ∈ s.slices.headD [], p.elementId = NST.OUT_OF_NETWORK) :
    (NST.run_one_step phases s dt).2 = Except.error NST.EngineError.noMoreParcels ∧
    NST.run_one_step phases s dt =
      NST.run_one_step (fun t => (t, Except.ok ())) s dt := by
  rw [run_one_step_exhaustion phases s dt h,
    run_one_step_exhaustion (fun t => (t, Except.ok ())) s dt h]
  exact ⟨rfl, rfl⟩

/-- C7 witness: a state whose only parcel is out of network; the step
raises the exhaustion error. -/
theorem c7_run_one_step_exhaustion_error_witness :
    (NST.run_one_step (fun t => (t, Except.ok ()))
      (NST.EngineState.mk 0 0 [[NST.ParcelRec.mk (-2) 0 1 0 1 1]]) 5).2 =
      Except.error NST.EngineError.noMoreParcels :=
  (c7_run_one_step_exhaustion_error (fun t => (t, Except.ok ()))
    (NST.EngineState.mk 0 0 [[NST.ParcelRec.mk (-2) 0 1 0 1 1]]) 5
    (by
      rintro p hp
      rw [List.headD_cons, List.mem_singleton] at hp
      subst hp
      rfl)).1

/-- C9: when run_one_step raises the exhaustion error, the state was already
mutated before the raise: the clock holds the pre-call time plus dt and a
new time slice equal to the previous slice (carried-forward attribute
values) was appended to the parcel record. -/
theorem c9_exhaustion_partial_mutation
    (phases : NST.EngineState → NST.EngineState × Except NST.EngineError Unit)
    (s : NST.EngineState) (dt : ℚ)
    (h : ∀ p ∈ s.slices.headD [], p.elementId = NST.OUT_OF_NETWORK) :
    (NST.run_one_step phases s dt).2 = Except.error NST.EngineError.noMoreParcels ∧
    (NST.run_one_step phases s dt).1.time = s.time + dt ∧
    (NST.run_one_step phases s dt).1.slices = s.slices.headD [] :: s.slices := by
  rw [run_one_step_exhaustion phases s dt h]
  exact ⟨rfl, rfl, rfl⟩

/-- C9 witness: a state at time 1 whose only parcel is out of network,
stepped by dt = 2: the raising step leaves time 3 and a duplicated slice. -/
theorem c9_exhaustion_partial_mutation_witness :
    (NST.run_one_step (fun t => (t, Except.ok ()))
      (NST.EngineState.mk 1 4 [[NST.ParcelRec.mk (-2) 0 0 0 2 3]]) 2).1.time = 1 + 2 ∧
    (NST.run_one_step (fun t => (t, Except.ok ()))
      (NST.EngineState.mk 1 4 [[NST.ParcelRec.mk (-2) 0 0 0 2 3]]) 2).1.slices =
      [NST.ParcelRec.mk (-2) 0 0 0 2 3] ::
        [[NST.ParcelRec.mk (-2) 0 0 0 2 3]] := by
  have happ := c9_exhaustion_partial_mutation (fun t => (t, Except.ok ()))
    (NST.EngineState.mk 1 4 [[NST.ParcelRec.mk (-2) 0 0 0 2 3]]) 2
    (by
      rintro p hp
      rw [List.headD_cons, List.mem_singleton] at hp
      subst hp
      rfl)
  exact ⟨happ.2.1, happ.2.2⟩

namespace NST

/-- Embedding of the cumulative-distance update of _move_parcel_downstream.
When the sizes match, the per-parcel step distances are added to the
accumulator.  When the accumulator size differs from the distance array
(parcels were added mid-run), the source aliases the step-distance array
(dist_array = distance_to_travel_this_timestep) and then adds the step
distances into its first numParcels entries in place, so the old
accumulator is dropped and the kept entries are doubled step distances. -/
def distance_traveled_cumulative_update (cumulative dist : List ℚ)
    (numParcels : ℕ) : List ℚ :=
  if cumulative.length ≠ dist.length then
    List.zipWith (· + ·) (dist.take numParcels) dist ++ dist.drop numParcels
  else List.zipWith (· + ·) cumulative dist

end NST

/-- C8: evaluating the accumulator update at a run where one parcel with
accumulated distance 5 is joined by a new parcel, with step distances
(2, 3) and the post-addition parcel count 2, yields (4, 6): the code
doubles this step distances and discards the prior total, instead of the
(7, 3) = (5 + 2, 0 + 3) the claim requires. -/
theorem c8_accumulator_code_bug :
    NST.distance_traveled_cumulative_update [5] [2, 3] 2 = [4, 6] ∧
    NST.distance_traveled_cumulative_update [5] [2, 3] 2 ≠ [5 + 2, 0 + 3] := by
  constructor
  · norm_num [NST.distance_traveled_cumulative_update]
  · norm_num [NST.distance_traveled_cumulative_update]

namespace NST

/-- Embedding of _calculate_parcel_volume_post_abrasion: Sternberg
exponential abrasion, volume = starting volume * exp(travel distance *
(-abrasion rate)), raising when the result exceeds the starting volume. -/
noncomputable def calculate_parcel_volume_post_abrasion
    (startingVolume travelDistance abrasionRate : ℝ) : Except EngineError ℝ :=
  let volume := startingVolume * Real.exp (travelDistance * (-abrasionRate))
  if volume > startingVolume then Except.error EngineError.volumeIncrease
  else Except.ok volume

/-- Embedding of _calculate_parcel_grain_diameter_post_abrasion: cube-root
volume-ratio scaling of the diameter. -/
noncomputable def calculate_parcel_grain_diameter_post_abrasion
    (startingDiameter preAbrasionVolume postAbrasionVolume : ℝ) : ℝ :=
  startingDiameter * (postAbrasionVolume / preAbrasionVolume) ^ ((1 : ℝ) / 3)

/-- The network geometry read by _move_parcel_downstream: per-link length,
and per-link downstream link id, -1 when the downstream node has no
receiving link (fd.link_to_flow_receiving_node at the downstream node of
the link). -/
structure MoveEnv where
  linkLength : ℕ → ℚ
  downstreamLink : ℕ → ℤ

/-- The per-parcel state read and written by _move_parcel_downstream at the
current time index.  locationInLink is none when the source stores NaN
(exactly the off-network case). -/
structure ParcelState where
  elementId : ℤ
  locationInLink : Option ℚ
  timeArrivalInLink : ℚ
  volume : ℝ
  D : ℝ
  abrasionRate : ℝ

/-- The while loop of _move_parcel_downstream, with an explicit fuel bound
(the source loop has no bound; every claim below needs finitely many
iterations).  State carried: current link, running travel distance in dt,
distance to exit the current link, distance already within the current
link, and the arrival time attribute.  On each crossing the running
distance grows by the exit distance, the parcel moves to the downstream
link and its arrival time becomes the current time index; if there is no
downstream link (-1) the parcel leaves the network and the loop breaks. -/
def move_walk (env : MoveEnv) (timeIdx distTotal : ℚ) :
    ℕ → ℤ → ℚ → ℚ → ℚ → ℚ → Option (ℤ × ℚ × ℚ × ℚ)
  | 0, _, _, _, _, _ => none
  | fuel + 1, currentLink, running, distToExit, distWithin, arrival =>
    if running + distToExit ≤ distTotal then
      let running2 := running + distToExit
      let ds := env.downstreamLink currentLink.toNat
      if ds = -1 then some (OUT_OF_NETWORK, running2, 0, timeIdx)
      else move_walk env timeIdx distTotal fuel ds running2
        (env.linkLength ds.toNat) 0 timeIdx
    else some (currentLink, running, distWithin, arrival)

/-- Embedding of the per-parcel body of _move_parcel_downstream: parcels
already out of network are skipped; otherwise the parcel walks downstream
by its total step travel distance, its resting fractional location in the
final link is computed from the leftover distance (NaN, modelled none,
when it exited the network), and abrasion shrinks volume and diameter
using the total step distance. -/
noncomputable def move_parcel_downstream (env : MoveEnv) (timeIdx distTotal : ℚ)
    (fuel : ℕ) (p : ParcelState) : Except EngineError ParcelState :=
  if p.elementId ≠ OUT_OF_NETWORK then
    match move_walk env timeIdx distTotal fuel p.elementId 0
      (env.linkLength p.elementId.toNat * (1 - (p.locationInLink.getD 0)))
      (env.linkLength p.elementId.toNat * (p.locationInLink.getD 0))
      p.timeArrivalInLink with
    | none => Except.error EngineError.outOfFuel
    | some (link2, running2, within2, arrival2) =>
      let resting := within2 + distTotal - running2
      let loc2 : Option ℚ :=
        if link2 = OUT_OF_NETWORK then none
        else some (resting / env.linkLength link2.toNat)
      match calculate_parcel_volume_post_abrasion p.volume (distTotal : ℝ)
        p.abrasionRate with
      | Except.error e => Except.error e
      | Except.ok vol =>
        Except.ok { p with
          locationInLink := loc2
          elementId := link2
          timeArrivalInLink := arrival2
          D := calculate_parcel_grain_diameter_post_abrasion p.D p.volume vol
          volume := vol }
  else Except.ok p

end NST

/-- Helper: a successful abrasion call returns exactly the Sternberg value. -/
theorem abrasion_ok_value (v d r w : ℝ)
    (h : NST.calculate_parcel_volume_post_abrasion v d r = Except.ok w) :
    w = v * Real.exp (d * (-r)) := by
  simp only [NST.calculate_parcel_volume_post_abrasion] at h
  by_cases hc : v * Real.exp (d * (-r)) > v
  · rw [if_pos hc] at h
    cases h
  · rw [if_neg hc] at h
    injection h with h
    exact h.symm

/-- C4: the post-abrasion volume is starting volume * exp(-distance * rate)
and the call raises exactly when that value would exceed the starting
volume; the advection step applies abrasion with the total step travel
distance, so every surviving in-network parcel ends the step with volume
old volume * exp(total distance * (-abrasion rate)). -/
theorem c4_abrasion_volume :
    (∀ v d r : ℝ, NST.calculate_parcel_volume_post_abrasion v d r =
      if v * Real.exp (d * (-r)) > v then Except.error NST.EngineError.volumeIncrease
      else Except.ok (v * Real.exp (d * (-r)))) ∧
    (∀ (env : NST.MoveEnv) (tIdx distTotal : ℚ) (fuel : ℕ)
        (p q : NST.ParcelState),
      p.elementId ≠ NST.OUT_OF_NETWORK →
      NST.move_parcel_downstream env tIdx distTotal fuel p = Except.ok q →
      q.volume = p.volume * Real.exp ((distTotal : ℝ) * (-p.abrasionRate))) := by
  constructor
  · intro v d r
    rfl
  · intro env tIdx distTotal fuel p q hin hok
    unfold NST.move_parcel_downstream at hok
    rw [if_pos hin] at hok
    rcases hwalk : NST.move_walk env tIdx distTotal fuel p.elementId 0
        (env.linkLength p.elementId.toNat * (1 - p.locationInLink.getD 0))
        (env.linkLength p.elementId.toNat * p.locationInLink.getD 0)
        p.timeArrivalInLink with _ | res
    · rw [hwalk] at hok
      cases hok
    · obtain ⟨link2, running2, within2, arrival2⟩ := res
      rw [hwalk] at hok
      rcases habr : NST.calculate_parcel_volume_post_abrasion p.volume
          ((distTotal : ℚ) : ℝ) p.abrasionRate with e | vol
      · rw [habr] at hok
        cases hok
      · rw [habr] at hok
        injection hok with hok
        rw [← hok]
        exact abrasion_ok_value _ _ _ _ habr

/-- Helper: an in-network parcel with zero step travel distance, fractional
location strictly below 1 in a positive-length link and nonzero volume is
returned unchanged by the advection body. -/
theorem move_parcel_zero_distance (env : NST.MoveEnv) (tIdx : ℚ) (fuel : ℕ)
    (p : NST.ParcelState) (l : ℚ)
    (hin : p.elementId ≠ NST.OUT_OF_NETWORK)
    (hloc : p.locationInLink = some l)
    (hl : l < 1)
    (hL : 0 < env.linkLength p.elementId.toNat)
    (hvol : p.volume ≠ 0)
    (hfuel : fuel ≠ 0) :
    NST.move_parcel_downstream env tIdx 0 fuel p = Except.ok p := by
  obtain ⟨f, rfl⟩ := Nat.exists_eq_succ_of_ne_zero hfuel
  have hgt : ¬ ((0 : ℚ) + env.linkLength p.elementId.toNat * (1 - l) ≤ 0) := by
    push_neg
    have h1 : (0 : ℚ) < 1 - l := by linarith
    have := mul_pos hL h1
    linarith
  have hwalk : NST.move_walk env tIdx 0 (f + 1) p.elementId 0
      (env.linkLength p.elementId.toNat * (1 - l))
      (env.linkLength p.elementId.toNat * l) p.timeArrivalInLink =
      some (p.elementId, 0, env.linkLength p.elementId.toNat * l,
        p.timeArrivalInLink) := by
    unfold NST.move_walk
    rw [if_neg hgt]
  have habr : NST.calculate_parcel_volume_post_abrasion p.volume (((0 : ℚ) : ℝ))
      p.abrasionRate = Except.ok p.volume := by
    simp only [NST.calculate_parcel_volume_post_abrasion]
    norm_num
  unfold NST.move_parcel_downstream
  rw [if_pos hin, hloc]
  simp only [Option.getD_some]
  rw [hwalk]
  simp only []
  rw [habr]
  have hresting : env.linkLength p.elementId.toNat * l + 0 - 0 =
      env.linkLength p.elementId.toNat * l := by ring
  have hloc2 : env.linkLength p.elementId.toNat * l /
      env.linkLength p.elementId.toNat = l :=
    mul_div_cancel_left₀ l (ne_of_gt hL)
  have hD : NST.calculate_parcel_grain_diameter_post_abrasion p.D p.volume
      p.volume = p.D := by
    unfold NST.calculate_parcel_grain_diameter_post_abrasion
    rw [div_self hvol, Real.one_rpow, mul_one]
  rw [if_neg (by simpa using hin), hresting, hloc2]
  dsimp only []
  rw [hD, ← hloc]

/-- Helper: an in-network parcel sitting exactly at the downstream end of
its link (fractional location 1) is advanced into the downstream link by
the advection body even when its step travel distance is zero, because the
distance needed to exit its link is zero and the walk condition is
non-strict; its arrival time is rewritten to the current time index and
its location becomes 0 in the downstream link. -/
theorem move_parcel_zero_distance_at_end (env : NST.MoveEnv) (tIdx : ℚ) (f : ℕ)
    (p : NST.ParcelState)
    (hin : p.elementId ≠ NST.OUT_OF_NETWORK)
    (hloc : p.locationInLink = some 1)
    (hds : env.downstreamLink p.elementId.toNat ≠ -1)
    (hdsOut : env.downstreamLink p.elementId.toNat ≠ NST.OUT_OF_NETWORK)
    (hL2 : 0 < env.linkLength (env.downstreamLink p.elementId.toNat).toNat)
    (hvol : p.volume ≠ 0) :
    NST.move_parcel_downstream env tIdx 0 (f + 1 + 1) p =
      Except.ok (NST.ParcelState.mk (env.downstreamLink p.elementId.toNat)
        (some 0) tIdx p.volume p.D p.abrasionRate) := by
  have hcond : (0 : ℚ) + env.linkLength p.elementId.toNat * (1 - 1) ≤ 0 := by
    norm_num
  have hstop : ¬ ((0 + env.linkLength p.elementId.toNat * (1 - 1)) +
      env.linkLength (env.downstreamLink p.elementId.toNat).toNat ≤ 0) := by
    push_neg
    have h1 : (0 : ℚ) + env.linkLength p.elementId.toNat * (1 - 1) = 0 := by ring
    rw [h1]
    linarith
  have hwalk : NST.move_walk env tIdx 0 (f + 1 + 1) p.elementId 0
      (env.linkLength p.elementId.toNat * (1 - 1))
      (env.linkLength p.elementId.toNat * 1) p.timeArrivalInLink =
      some (env.downstreamLink p.elementId.toNat,
        0 + env.linkLength p.elementId.toNat * (1 - 1), 0, tIdx) := by
    unfold NST.move_walk
    rw [if_pos hcond, if_neg hds]
    unfold NST.move_walk
    dsimp only
    rw [if_neg hstop]
  have habr : NST.calculate_parcel_volume_post_abrasion p.volume (((0 : ℚ) : ℝ))
      p.abrasionRate = Except.ok p.volume := by
    simp only [NST.calculate_parcel_volume_post_abrasion]
    norm_num
  have hD : NST.calculate_parcel_grain_diameter_post_abrasion p.D p.volume
      p.volume = p.D := by
    unfold NST.calculate_parcel_grain_diameter_post_abrasion
    rw [div_self hvol, Real.one_rpow, mul_one]
  unfold NST.move_parcel_downstream
  rw [if_pos hin, hloc]
  simp only [Option.getD_some]
  rw [hwalk]
  dsimp only
  rw [if_neg hdsOut, habr]
  dsimp only
  rw [hD]
  have hresting : (0 : ℚ) + 0 - (0 + env.linkLength p.elementId.toNat * (1 - 1)) /
      env.linkLength (env.downstreamLink p.elementId.toNat).toNat = 0 := by
    ring_nf
  congr 1
  · field_simp

/-- A concrete two-link geometry: every link has length 10; link 0 flows
into link 1 and link 1 is the terminal link. -/
def envA : NST.MoveEnv :=
  NST.MoveEnv.mk (fun _ => 10) (fun n => if n = 0 then 1 else -1)

/-- A concrete in-network parcel halfway along link 0. -/
noncomputable def parcelA : NST.ParcelState :=
  NST.ParcelState.mk 0 (some (1 / 2)) 0 1 1 0

/-- Helper evaluation: parcelA does not move with zero travel distance. -/
theorem move_parcelA_eval :
    NST.move_parcel_downstream envA 0 0 1 parcelA = Except.ok parcelA :=
  move_parcel_zero_distance envA 0 1 parcelA (1 / 2) (by decide) rfl
    (by norm_num) (by norm_num [envA, parcelA]) (by norm_num [parcelA])
    (by decide)

/-- C4 witness: c4_abrasion_volume applied to parcelA with zero travel
distance: the surviving volume is the Sternberg value at the total step
distance 0. -/
theorem c4_abrasion_volume_witness :
    NST.move_parcel_downstream envA 0 0 1 parcelA = Except.ok parcelA ∧
    parcelA.volume = parcelA.volume *
      Real.exp (((0 : ℚ) : ℝ) * (-parcelA.abrasionRate)) :=
  ⟨move_parcelA_eval,
    c4_abrasion_volume.2 envA 0 0 1 parcelA parcelA (by decide) move_parcelA_eval⟩

/-- C10 counterexample: the in-network parcel at fractional location 1 of
link 0 with zero travel distance is nevertheless advanced by the advection
body: it ends in link 1 at location 0 with its arrival time rewritten to
the current time index 1. -/
theorem c10_zero_velocity_counterexample :
    NST.move_parcel_downstream envA 1 0 2 (NST.ParcelState.mk 0 (some 1) 0 1 1 0) =
      Except.ok (NST.ParcelState.mk 1 (some 0) 1 1 1 0) ∧
    (1 : ℤ) ≠ (0 : ℤ) ∧ some (0 : ℚ) ≠ some (1 : ℚ) ∧ (1 : ℚ) ≠ (0 : ℚ) := by
  refine ⟨?_, by decide, by norm_num, by norm_num⟩
  have h := move_parcel_zero_distance_at_end envA 1 0
    (NST.ParcelState.mk 0 (some 1) 0 1 1 0) (by decide) rfl (by decide)
    (by decide) (by norm_num [envA]) (by norm_num)
  have hds : envA.downstreamLink
      ((NST.ParcelState.mk 0 (some 1) 0 1 1 0).elementId).toNat = 1 := by
    norm_num [envA]
  rw [hds] at h
  exact h

/-- C10 amended: for every in-network parcel whose step travel distance is
zero (in particular every inactive parcel, whose velocity is zeroed) and
whose fractional location in its positive-length link is strictly below 1,
with nonzero volume, the advection body returns the parcel unchanged:
link, location in link, arrival time, volume and diameter all keep their
values. -/
theorem c10_zero_velocity_frame (env : NST.MoveEnv) (tIdx : ℚ) (fuel : ℕ)
    (p : NST.ParcelState) (l : ℚ)
    (hin : p.elementId ≠ NST.OUT_OF_NETWORK)
    (hloc : p.locationInLink = some l)
    (hl : l < 1)
    (hL : 0 < env.linkLength p.elementId.toNat)
    (hvol : p.volume ≠ 0)
    (hfuel : fuel ≠ 0) :
    NST.move_parcel_downstream env tIdx 0 fuel p = Except.ok p :=
  move_parcel_zero_distance env tIdx fuel p l hin hloc hl hL hvol hfuel

/-- C10 witness: c10_zero_velocity_frame at a concrete parcel two sevenths
of the way along terminal link 0 of a single-link geometry. -/
theorem c10_zero_velocity_frame_witness :
    NST.move_parcel_downstream (NST.MoveEnv.mk (fun _ => 7) (fun _ => -1)) 3 0 1
      (NST.ParcelState.mk 0 (some (2 / 7)) 5 2 3 1) =
      Except.ok (NST.ParcelState.mk 0 (some (2 / 7)) 5 2 3 1) :=
  c10_zero_velocity_frame (NST.MoveEnv.mk (fun _ => 7) (fun _ => -1)) 3 1
    (NST.ParcelState.mk 0 (some (2 / 7)) 5 2 3 1) (2 / 7) (by decide) rfl
    (by norm_num) (by norm_num) (by norm_num) (by decide)
